import Mathlib

/-!
Shallow embedding of the sd109 hwmon/watchdog/rtc driver (sd109.c, sd109.h).

Register transactions are modelled by a `Bus` oracle; every embedded
operation returns, besides its C return value, the list of bus/registration
events it performed, so that claims about "which registers were touched"
become statements about that trace.  Machine integers are modelled as `Nat`
(unsigned) or `Int` (signed C types such as `time64_t` and `int`), with
explicit truncation where the C code converts between them.
-/

/-! ### Constants from sd109.h -/

def NUM_CH_VIN : Nat := 5

def SD109_CHIP_ID_REG : Nat := 0x00
def SD109_CHIP_ID : Nat := 0xd109
def SD109_CHIP_VER_REG : Nat := 0x01

def SD109_STATUS : Nat := 0x02
def SD109_STATUS_POWERUP : Nat := 0x0001
def SD109_STATUS_POWEROFF : Nat := 0x0002
def SD109_STATUS_REBOOT : Nat := 0x0003
def SD109_STATUS_HALT : Nat := 0x0004
def SD109_STATUS_WAKEUP : Nat := 0x0005

def SD109_COMMAND : Nat := 0x06
def SD109_WDOG_ENABLE : Nat := 0x01
def SD109_WDOG_DISABLE : Nat := 0x02
def SD109_EXEC_POWEROFF : Nat := 0x03
def SD109_EXEC_REBOOT : Nat := 0x04
def SD109_EXEC_HALT : Nat := 0x05

def SD109_WDOG_REFRESH : Nat := 0x08
def SD109_WDOG_REFRESH_MAGIC_VALUE : Nat := 0x0d1e
def SD109_WDOG_TIMEOUT : Nat := 0x09
def SD109_WDOG_TIMEOUT_MASK : Nat := 0x00FF
def SD109_WDOG_TIMEOUT_POS : Nat := 0
def SD109_WDOG_WAIT_MASK : Nat := 0xFF00
def SD109_WDOG_WAIT_POS : Nat := 8

def SD109_VOLTAGE_5V_BOARD : Nat := 0x0A
def SD109_VOLTAGE_5V_BOARD_MIN : Nat := 0x0B
def SD109_VOLTAGE_5V_BOARD_MAX : Nat := 0x0C

def SD109_RTC0 : Nat := 0x1A
def SD109_RTC1 : Nat := 0x1B
def SD109_RTC2 : Nat := 0x1C
def SD109_WAKEUP0 : Nat := 0x1D
def SD109_WAKEUP1 : Nat := 0x1E
def SD109_WAKEUP2 : Nat := 0x1F

def SD109_MIN_WDOG_WAIT : Nat := 45

/-! ### Kernel constants (errno, reboot codes, notifier result) -/

def EINVAL : Int := 22
def ENODEV : Int := 19
def EOPNOTSUPP : Int := 95

def SYS_DOWN : Nat := 0x0001
def SYS_RESTART : Nat := SYS_DOWN
def SYS_HALT : Nat := 0x0002
def SYS_POWER_OFF : Nat := 0x0003

def NOTIFY_DONE : Int := 0x0000

/-! ### Bus model and event traces -/

/-- One observable action of the driver: a regmap read/write, or one of the
external registration calls that make a facade reachable. -/
inductive Ev
  | read (addr : Nat)
  | write (addr val : Nat)
  | hwmonRegister
  | wdogRegister
  | rtcRegister
  | rebootNotifier
deriving DecidableEq, Repr

/-- The regmap oracle.  `read a` returns the C return code (0 on success,
negative errno on failure) and the value that would be stored through the
out-pointer; as in regmap, the value is only meaningful when the return code
is 0, and every embedded operation only consumes it on the success path.
`write a v` returns the C return code. -/
structure Bus where
  read : Nat → Int × Nat
  write : Nat → Nat → Int

/-! ### Time codec (sd109_rtc_set_time / sd109_rtc_read_time, lines 481-558)

`sd109_time_words` is exactly the word extraction performed by
`sd109_rtc_set_time` (lines 496, 503, 510); `sd109_time_decode` is exactly
the accumulation performed by `sd109_rtc_read_time` (lines 537-554) and
`sd109_rtc_read_alarm` (lines 620-637). -/

def sd109_time_words (t64 : Nat) : Nat × Nat × Nat :=
  (t64 &&& 0xffff, (t64 >>> 16) &&& 0xffff, (t64 >>> 32) &&& 0xffff)

def sd109_time_decode (w0 w1 w2 : Nat) : Nat :=
  ((w0 &&& 0xffff) ||| ((w1 &&& 0xffff) <<< 16)) ||| ((w2 &&& 0xffff) <<< 32)

/-- Two's-complement image of a signed 64-bit C value (`time64_t`) as the
natural number formed by its low 64 bits. -/
def toNat64 (i : Int) : Nat := (i % (2 : Int) ^ 64).toNat

/-- `sd109_rtc_set_time`, sd109.c lines 481-518.  Input is the `time64_t`
produced by `rtc_tm_to_time64`; output is the C return value and the trace
of register writes performed. -/
def sd109_rtc_set_time (bus : Bus) (new_time : Int) : Int × List Ev :=
  if (0x0000ffffffffffff : Int) < new_time then (-EINVAL, [])
  else
    let t64 := toNat64 new_time
    let tick0 := t64 &&& 0xffff
    let r0 := bus.write SD109_RTC0 tick0
    if r0 ≠ 0 then (r0, [Ev.write SD109_RTC0 tick0])
    else
      let tick1 := (t64 >>> 16) &&& 0xffff
      let r1 := bus.write SD109_RTC1 tick1
      if r1 ≠ 0 then (r1, [Ev.write SD109_RTC0 tick0, Ev.write SD109_RTC1 tick1])
      else
        let tick2 := (t64 >>> 32) &&& 0xffff
        let r2 := bus.write SD109_RTC2 tick2
        if r2 ≠ 0 then
          (r2, [Ev.write SD109_RTC0 tick0, Ev.write SD109_RTC1 tick1,
                Ev.write SD109_RTC2 tick2])
        else
          (0, [Ev.write SD109_RTC0 tick0, Ev.write SD109_RTC1 tick1,
               Ev.write SD109_RTC2 tick2])

/-- `sd109_rtc_read_time`, sd109.c lines 520-558.  Returns the C return
value, the `time64_t` handed to `rtc_time64_to_tm` (0 on the failure paths,
where the C code never reaches that call), and the trace of reads. -/
def sd109_rtc_read_time (bus : Bus) : Int × Nat × List Ev :=
  let p0 := bus.read SD109_RTC0
  if p0.1 ≠ 0 then (p0.1, 0, [Ev.read SD109_RTC0])
  else
    let t0 := p0.2 &&& 0xffff
    let p1 := bus.read SD109_RTC1
    if p1.1 ≠ 0 then (p1.1, 0, [Ev.read SD109_RTC0, Ev.read SD109_RTC1])
    else
      let t1 := t0 ||| ((p1.2 &&& 0xffff) <<< 16)
      let p2 := bus.read SD109_RTC2
      if p2.1 ≠ 0 then
        (p2.1, 0, [Ev.read SD109_RTC0, Ev.read SD109_RTC1, Ev.read SD109_RTC2])
      else
        (0, t1 ||| ((p2.2 &&& 0xffff) <<< 32),
         [Ev.read SD109_RTC0, Ev.read SD109_RTC1, Ev.read SD109_RTC2])

/-- Host-shadowed alarm flags (fields `alarm_enabled`/`alarm_pending` of
`struct sd109_private`). -/
structure AlarmShadow where
  alarm_enabled : Bool
  alarm_pending : Bool
deriving DecidableEq, Repr

/-- `sd109_rtc_set_alarm`, sd109.c lines 560-601.  Returns the C return
value, the shadow flags as stored in host memory, and the write trace. -/
def sd109_rtc_set_alarm (bus : Bus) (alarm_time : Int) (enabled pending : Bool) :
    Int × AlarmShadow × List Ev :=
  let sh : AlarmShadow := ⟨enabled, pending⟩
  if (0x0000ffffffffffff : Int) < alarm_time then (-EINVAL, sh, [])
  else
    let t64 := toNat64 alarm_time
    let tick0 := t64 &&& 0xffff
    let r0 := bus.write SD109_WAKEUP0 tick0
    if r0 ≠ 0 then (r0, sh, [Ev.write SD109_WAKEUP0 tick0])
    else
      let tick1 := (t64 >>> 16) &&& 0xffff
      let r1 := bus.write SD109_WAKEUP1 tick1
      if r1 ≠ 0 then (r1, sh, [Ev.write SD109_WAKEUP0 tick0, Ev.write SD109_WAKEUP1 tick1])
      else
        let tick2 := (t64 >>> 32) &&& 0xffff
        let r2 := bus.write SD109_WAKEUP2 tick2
        if r2 ≠ 0 then
          (r2, sh, [Ev.write SD109_WAKEUP0 tick0, Ev.write SD109_WAKEUP1 tick1,
                    Ev.write SD109_WAKEUP2 tick2])
        else
          (0, sh, [Ev.write SD109_WAKEUP0 tick0, Ev.write SD109_WAKEUP1 tick1,
                   Ev.write SD109_WAKEUP2 tick2])

/-- `sd109_rtc_read_alarm`, sd109.c lines 603-644.  Returns the C return
value, the decoded alarm time, the reported enabled/pending flags (copied
from the host shadow), and the read trace. -/
def sd109_rtc_read_alarm (bus : Bus) (sh : AlarmShadow) :
    Int × Nat × AlarmShadow × List Ev :=
  let p0 := bus.read SD109_WAKEUP0
  if p0.1 ≠ 0 then (p0.1, 0, sh, [Ev.read SD109_WAKEUP0])
  else
    let t0 := p0.2 &&& 0xffff
    let p1 := bus.read SD109_WAKEUP1
    if p1.1 ≠ 0 then (p1.1, 0, sh, [Ev.read SD109_WAKEUP0, Ev.read SD109_WAKEUP1])
    else
      let t1 := t0 ||| ((p1.2 &&& 0xffff) <<< 16)
      let p2 := bus.read SD109_WAKEUP2
      if p2.1 ≠ 0 then
        (p2.1, 0, sh, [Ev.read SD109_WAKEUP0, Ev.read SD109_WAKEUP1, Ev.read SD109_WAKEUP2])
      else
        (0, t1 ||| ((p2.2 &&& 0xffff) <<< 32), sh,
         [Ev.read SD109_WAKEUP0, Ev.read SD109_WAKEUP1, Ev.read SD109_WAKEUP2])

/-- A bus serving the three clock words and the three alarm words from a
fixed word triple, with all writes succeeding; used to close the
encode/decode loop of the time codec. -/
def wordBus (w0 w1 w2 : Nat) : Bus where
  read a :=
    if a = SD109_RTC0 ∨ a = SD109_WAKEUP0 then (0, w0)
    else if a = SD109_RTC1 ∨ a = SD109_WAKEUP1 then (0, w1)
    else if a = SD109_RTC2 ∨ a = SD109_WAKEUP2 then (0, w2)
    else (0, 0)
  write _ _ := 0

/-! ### Arithmetic bridges for the bitwise codec -/

lemma and_mask16 (x : Nat) : x &&& 0xffff = x % 65536 := by
  have h := Nat.and_pow_two_sub_one_eq_mod x 16
  norm_num at h
  exact h

lemma lor_shiftLeft_eq_add {a : Nat} (b k : Nat) (h : a < 2 ^ k) :
    a ||| (b <<< k) = b * 2 ^ k + a := by
  rw [Nat.shiftLeft_eq, Nat.or_comm, Nat.mul_comm b (2 ^ k)]
  exact (Nat.mul_add_lt_is_or h b).symm

lemma lor_sixteen (a b : Nat) (h : a < 65536) : a ||| (b <<< 16) = b * 65536 + a := by
  have h2 : a < 2 ^ 16 := lt_of_lt_of_eq h (by norm_num)
  rw [lor_shiftLeft_eq_add b 16 h2]
  norm_num

lemma lor_thirtytwo (a b : Nat) (h : a < 4294967296) :
    a ||| (b <<< 32) = b * 4294967296 + a := by
  have h2 : a < 2 ^ 32 := lt_of_lt_of_eq h (by norm_num)
  rw [lor_shiftLeft_eq_add b 32 h2]
  norm_num

lemma sd109_time_words_decode (t : Nat) (ht : t < 2 ^ 48) :
    sd109_time_decode (sd109_time_words t).1 (sd109_time_words t).2.1
      (sd109_time_words t).2.2 = t := by
  have ht48 : t < 281474976710656 := by norm_num at ht; exact ht
  simp only [sd109_time_words, sd109_time_decode, and_mask16,
    Nat.shiftRight_eq_div_pow]
  try norm_num
  rw [lor_sixteen _ _ (by omega), lor_thirtytwo _ _ (by omega)]
  omega

lemma sd109_decode_words_encode (w0 w1 w2 : Nat)
    (h0 : w0 < 2 ^ 16) (h1 : w1 < 2 ^ 16) (h2 : w2 < 2 ^ 16) :
    sd109_time_words (sd109_time_decode w0 w1 w2) = (w0, w1, w2) := by
  have g0 : w0 < 65536 := by norm_num at h0; exact h0
  have g1 : w1 < 65536 := by norm_num at h1; exact h1
  have g2 : w2 < 65536 := by norm_num at h2; exact h2
  simp only [sd109_time_decode, sd109_time_words, and_mask16,
    Nat.shiftRight_eq_div_pow]
  try norm_num
  rw [lor_sixteen _ _ (by omega), lor_thirtytwo _ _ (by omega)]
  refine ⟨by omega, by omega, by omega⟩

lemma toNat64_natCast (t : Nat) (h : t < 2 ^ 64) : toNat64 (t : Int) = t := by
  unfold toNat64
  rw [Int.emod_eq_of_lt (by positivity) (by exact_mod_cast h)]
  simp

lemma sd109_rtc_read_time_wordBus (w0 w1 w2 : Nat) :
    sd109_rtc_read_time (wordBus w0 w1 w2)
      = (0, sd109_time_decode w0 w1 w2,
         [Ev.read SD109_RTC0, Ev.read SD109_RTC1, Ev.read SD109_RTC2]) := rfl

lemma sd109_rtc_read_alarm_wordBus (w0 w1 w2 : Nat) (sh : AlarmShadow) :
    sd109_rtc_read_alarm (wordBus w0 w1 w2) sh
      = (0, sd109_time_decode w0 w1 w2, sh,
         [Ev.read SD109_WAKEUP0, Ev.read SD109_WAKEUP1, Ev.read SD109_WAKEUP2]) := rfl

/-- C1: encoding a 48-bit time as three 16-bit words least-significant first,
as done by `sd109_rtc_set_time` (the three register writes it issues), and
decoding those words as done by `sd109_rtc_read_time` / `sd109_rtc_read_alarm`,
returns exactly the original value; moreover encoding is a left inverse of
decoding on 16-bit word triples, so the codec is a bijection between
`[0, 2^48-1]` and such triples. -/
theorem sd109_time_codec_bijection (t w0 w1 w2 : Nat) (ht : t < 2 ^ 48)
    (henc : sd109_time_words t = (w0, w1, w2)) :
    (sd109_rtc_set_time (wordBus w0 w1 w2) (t : Int)).2
        = [Ev.write SD109_RTC0 w0, Ev.write SD109_RTC1 w1, Ev.write SD109_RTC2 w2]
    ∧ sd109_rtc_read_time (wordBus w0 w1 w2)
        = (0, t, [Ev.read SD109_RTC0, Ev.read SD109_RTC1, Ev.read SD109_RTC2])
    ∧ sd109_rtc_read_alarm (wordBus w0 w1 w2) ⟨false, false⟩
        = (0, t, ⟨false, false⟩,
           [Ev.read SD109_WAKEUP0, Ev.read SD109_WAKEUP1, Ev.read SD109_WAKEUP2])
    ∧ (∀ v0 v1 v2 : Nat, v0 < 2 ^ 16 → v1 < 2 ^ 16 → v2 < 2 ^ 16 →
        sd109_time_words (sd109_time_decode v0 v1 v2) = (v0, v1, v2)) := by
  simp only [sd109_time_words, Prod.mk.injEq] at henc
  obtain ⟨e0, e1, e2⟩ := henc
  have hlt : ¬ ((0x0000ffffffffffff : Int) < (t : Int)) := by
    push_neg
    exact_mod_cast Nat.le_of_lt_succ (by norm_num at ht ⊢; omega)
  have h64 : toNat64 (t : Int) = t := toNat64_natCast t (by norm_num at ht ⊢; omega)
  refine ⟨?_, ?_, ?_, ?_⟩
  · simp only [sd109_rtc_set_time, hlt, if_false, wordBus, h64, e0, e1, e2]
    norm_num
  · rw [sd109_rtc_read_time_wordBus]
    have hd : sd109_time_decode w0 w1 w2 = t := by
      have h := sd109_time_words_decode t ht
      simp only [sd109_time_words] at h
      rw [e0, e1, e2] at h
      exact h
    rw [hd]
  · rw [sd109_rtc_read_alarm_wordBus]
    have hd : sd109_time_decode w0 w1 w2 = t := by
      have h := sd109_time_words_decode t ht
      simp only [sd109_time_words] at h
      rw [e0, e1, e2] at h
      exact h
    rw [hd]
  · intro v0 v1 v2 h0 h1 h2
    exact sd109_decode_words_encode v0 v1 v2 h0 h1 h2

/-- Witness for C1 at the spec's own example `t = 1700000000`, whose encoding
is the word triple `(0xF100, 0x6553, 0x0000)`. -/
theorem sd109_time_codec_bijection_witness :
    (sd109_rtc_set_time (wordBus 0xF100 0x6553 0x0000) (1700000000 : Int)).2
        = [Ev.write SD109_RTC0 0xF100, Ev.write SD109_RTC1 0x6553,
           Ev.write SD109_RTC2 0x0000]
    ∧ sd109_rtc_read_time (wordBus 0xF100 0x6553 0x0000)
        = (0, 1700000000, [Ev.read SD109_RTC0, Ev.read SD109_RTC1, Ev.read SD109_RTC2])
    ∧ sd109_time_words (sd109_time_decode 0xF100 0x6553 0x0000)
        = (0xF100, 0x6553, 0x0000) :=
  have h := sd109_time_codec_bijection 1700000000 0xF100 0x6553 0x0000
    (by norm_num) (by decide)
  ⟨h.1, h.2.1, h.2.2.2 0xF100 0x6553 0x0000 (by norm_num) (by norm_num) (by norm_num)⟩

/-- C5: any time value above `2^48-1` is rejected by `sd109_rtc_set_time`
with `-EINVAL` before any register write is issued (empty write trace, so no
partial update can occur). -/
theorem sd109_rtc_set_time_rejects_large (bus : Bus) (t : Int)
    (ht : (2 : Int) ^ 48 - 1 < t) :
    sd109_rtc_set_time bus t = (-EINVAL, []) := by
  have h : (0x0000ffffffffffff : Int) < t := by norm_num at ht; exact ht
  simp [sd109_rtc_set_time, h]

/-- Witness for C5 at `t = 2^48`. -/
theorem sd109_rtc_set_time_rejects_large_witness :
    sd109_rtc_set_time (wordBus 0 0 0) ((2 : Int) ^ 48) = (-EINVAL, []) :=
  sd109_rtc_set_time_rejects_large (wordBus 0 0 0) ((2 : Int) ^ 48) (by norm_num)

/-- C6: `sd109_rtc_set_alarm` stores the host-shadowed enabled/pending flags
unconditionally, and when the alarm time exceeds `2^48-1` it then rejects
with `-EINVAL` before any of the three alarm-word writes (empty trace). -/
theorem sd109_rtc_set_alarm_shadow_unconditional (bus : Bus) (t : Int)
    (en pe : Bool) :
    (sd109_rtc_set_alarm bus t en pe).2.1 = ⟨en, pe⟩
    ∧ ((2 : Int) ^ 48 - 1 < t →
        sd109_rtc_set_alarm bus t en pe = (-EINVAL, ⟨en, pe⟩, [])) := by
  constructor
  · simp only [sd109_rtc_set_alarm]
    repeat' split
    all_goals rfl
  · intro ht
    have h : (0x0000ffffffffffff : Int) < t := by norm_num at ht; exact ht
    simp [sd109_rtc_set_alarm, h]

/-- Witness for C6 at `t = 2^48`, `enabled = true`, `pending = false`. -/
theorem sd109_rtc_set_alarm_shadow_unconditional_witness :
    (sd109_rtc_set_alarm (wordBus 0 0 0) ((2 : Int) ^ 48) true false).2.1
      = ⟨true, false⟩
    ∧ sd109_rtc_set_alarm (wordBus 0 0 0) ((2 : Int) ^ 48) true false
      = (-EINVAL, ⟨true, false⟩, []) :=
  have h := sd109_rtc_set_alarm_shadow_unconditional (wordBus 0 0 0)
    ((2 : Int) ^ 48) true false
  ⟨h.1, h.2 (by norm_num)⟩

/-! ### Voltage cache (sd109_get_voltage* and sd109_read_in, lines 62-213) -/

/-- The per-channel voltage cache fields of `struct sd109_private`
(sd109.h lines 57-68).  Channels are indexed by `Nat`; the driver only
touches indices `< NUM_CH_VIN`. -/
structure Sd109State where
  volt_valid : Nat → Bool
  volt : Nat → Nat
  volt_updated : Nat → Nat
  volt_max_valid : Nat → Bool
  volt_max : Nat → Nat
  volt_max_updated : Nat → Nat
  volt_min_valid : Nat → Bool
  volt_min : Nat → Nat
  volt_min_updated : Nat → Nat

/-- `sd109_get_voltage`, sd109.c lines 62-94.  `jiffies` is the current tick
counter and `HZ` the ticks-per-second constant, so the staleness test
`time_after(jiffies, data->volt_updated[ch] + HZ)` becomes
`volt_updated ch + HZ < jiffies`.  Returns the voltage handed back to the
caller, the updated cache state, and the trace of register reads.  On a
failed regmap read the C code jumps to `close` and returns the local
`voltage`, still 0, leaving the cache untouched. -/
def sd109_get_voltage (HZ : Nat) (bus : Bus) (jiffies : Nat)
    (data : Sd109State) (ch : Nat) : Nat × Sd109State × List Ev :=
  if ch < NUM_CH_VIN then
    if data.volt_updated ch + HZ < jiffies ∨ data.volt_valid ch = false then
      let reg := SD109_VOLTAGE_5V_BOARD + ch * 3
      let p := bus.read reg
      if p.1 < 0 then (0, data, [Ev.read reg])
      else
        (p.2,
         { data with
             volt := fun c => if c = ch then p.2 else data.volt c,
             volt_updated := fun c => if c = ch then jiffies else data.volt_updated c,
             volt_valid := fun c => if c = ch then true else data.volt_valid c },
         [Ev.read reg])
    else (data.volt ch, data, [])
  else (0, data, [])

/-- `sd109_get_voltage_max`, sd109.c lines 104-136. -/
def sd109_get_voltage_max (HZ : Nat) (bus : Bus) (jiffies : Nat)
    (data : Sd109State) (ch : Nat) : Nat × Sd109State × List Ev :=
  if ch < NUM_CH_VIN then
    if data.volt_max_updated ch + HZ < jiffies ∨ data.volt_max_valid ch = false then
      let reg := SD109_VOLTAGE_5V_BOARD_MAX + ch * 3
      let p := bus.read reg
      if p.1 < 0 then (0, data, [Ev.read reg])
      else
        (p.2,
         { data with
             volt_max := fun c => if c = ch then p.2 else data.volt_max c,
             volt_max_updated := fun c => if c = ch then jiffies else data.volt_max_updated c,
             volt_max_valid := fun c => if c = ch then true else data.volt_max_valid c },
         [Ev.read reg])
    else (data.volt_max ch, data, [])
  else (0, data, [])

/-- `sd109_get_voltage_min`, sd109.c lines 146-178. -/
def sd109_get_voltage_min (HZ : Nat) (bus : Bus) (jiffies : Nat)
    (data : Sd109State) (ch : Nat) : Nat × Sd109State × List Ev :=
  if ch < NUM_CH_VIN then
    if data.volt_min_updated ch + HZ < jiffies ∨ data.volt_min_valid ch = false then
      let reg := SD109_VOLTAGE_5V_BOARD_MIN + ch * 3
      let p := bus.read reg
      if p.1 < 0 then (0, data, [Ev.read reg])
      else
        (p.2,
         { data with
             volt_min := fun c => if c = ch then p.2 else data.volt_min c,
             volt_min_updated := fun c => if c = ch then jiffies else data.volt_min_updated c,
             volt_min_valid := fun c => if c = ch then true else data.volt_min_valid c },
         [Ev.read reg])
    else (data.volt_min ch, data, [])
  else (0, data, [])

/-- The `hwmon_in` attribute tags dispatched by `sd109_read_in`
(`hwmon_in_input`, `hwmon_in_max`, `hwmon_in_min`, anything else). -/
inductive HwmonInAttr
  | hwmon_in_input
  | hwmon_in_max
  | hwmon_in_min
  | hwmon_in_other
deriving DecidableEq, Repr

/-- `sd109_read_in`, sd109.c lines 189-213.  Returns the C return value, the
value stored through `*val` (0 on the unsupported paths, where the C code
leaves `*val` untouched), the cache state and the trace. -/
def sd109_read_in (HZ : Nat) (bus : Bus) (jiffies : Nat) (data : Sd109State)
    (attr : HwmonInAttr) (channel : Nat) : Int × Int × Sd109State × List Ev :=
  match attr with
  | .hwmon_in_input =>
      if channel < NUM_CH_VIN then
        let r := sd109_get_voltage HZ bus jiffies data channel
        (0, (r.1 : Int), r.2.1, r.2.2)
      else (-EOPNOTSUPP, 0, data, [])
  | .hwmon_in_max =>
      if channel < NUM_CH_VIN then
        let r := sd109_get_voltage_max HZ bus jiffies data channel
        (0, (r.1 : Int), r.2.1, r.2.2)
      else (-EOPNOTSUPP, 0, data, [])
  | .hwmon_in_min =>
      if channel < NUM_CH_VIN then
        let r := sd109_get_voltage_min HZ bus jiffies data channel
        (0, (r.1 : Int), r.2.1, r.2.2)
      else (-EOPNOTSUPP, 0, data, [])
  | .hwmon_in_other => (-EOPNOTSUPP, 0, data, [])

lemma sd109_get_voltage_read_fail (HZ : Nat) (bus : Bus) (jiffies : Nat)
    (data : Sd109State) (ch : Nat) (hch : ch < NUM_CH_VIN)
    (hmiss : data.volt_updated ch + HZ < jiffies ∨ data.volt_valid ch = false)
    (hfail : (bus.read (SD109_VOLTAGE_5V_BOARD + ch * 3)).1 < 0) :
    sd109_get_voltage HZ bus jiffies data ch
      = (0, data, [Ev.read (SD109_VOLTAGE_5V_BOARD + ch * 3)]) := by
  simp only [sd109_get_voltage]
  rw [if_pos hch, if_pos hmiss, if_pos hfail]

lemma sd109_get_voltage_max_read_fail (HZ : Nat) (bus : Bus) (jiffies : Nat)
    (data : Sd109State) (ch : Nat) (hch : ch < NUM_CH_VIN)
    (hmiss : data.volt_max_updated ch + HZ < jiffies ∨ data.volt_max_valid ch = false)
    (hfail : (bus.read (SD109_VOLTAGE_5V_BOARD_MAX + ch * 3)).1 < 0) :
    sd109_get_voltage_max HZ bus jiffies data ch
      = (0, data, [Ev.read (SD109_VOLTAGE_5V_BOARD_MAX + ch * 3)]) := by
  simp only [sd109_get_voltage_max]
  rw [if_pos hch, if_pos hmiss, if_pos hfail]

lemma sd109_get_voltage_min_read_fail (HZ : Nat) (bus : Bus) (jiffies : Nat)
    (data : Sd109State) (ch : Nat) (hch : ch < NUM_CH_VIN)
    (hmiss : data.volt_min_updated ch + HZ < jiffies ∨ data.volt_min_valid ch = false)
    (hfail : (bus.read (SD109_VOLTAGE_5V_BOARD_MIN + ch * 3)).1 < 0) :
    sd109_get_voltage_min HZ bus jiffies data ch
      = (0, data, [Ev.read (SD109_VOLTAGE_5V_BOARD_MIN + ch * 3)]) := by
  simp only [sd109_get_voltage_min]
  rw [if_pos hch, if_pos hmiss, if_pos hfail]

/-- C2 (amended): when a voltage `get` for any kind (input/max/min) on a
supported channel finds its cache slot invalid or stale and the triggered
register read fails, the cache slot is left completely unchanged (the whole
state is returned as-is, so `value`/`last_refresh`/`valid` keep their prior
contents); however the error is NOT propagated to the caller: the getter
returns the still-zero local voltage and `sd109_read_in` reports success
(return value 0) with `*val = 0`.  The failure is only logged. -/
theorem sd109_read_in_fail_swallows_error (HZ : Nat) (bus : Bus)
    (jiffies : Nat) (data : Sd109State) (channel : Nat)
    (hch : channel < NUM_CH_VIN)
    (hmiss_in : data.volt_updated channel + HZ < jiffies
        ∨ data.volt_valid channel = false)
    (hfail_in : (bus.read (SD109_VOLTAGE_5V_BOARD + channel * 3)).1 < 0)
    (hmiss_max : data.volt_max_updated channel + HZ < jiffies
        ∨ data.volt_max_valid channel = false)
    (hfail_max : (bus.read (SD109_VOLTAGE_5V_BOARD_MAX + channel * 3)).1 < 0)
    (hmiss_min : data.volt_min_updated channel + HZ < jiffies
        ∨ data.volt_min_valid channel = false)
    (hfail_min : (bus.read (SD109_VOLTAGE_5V_BOARD_MIN + channel * 3)).1 < 0) :
    sd109_read_in HZ bus jiffies data .hwmon_in_input channel
      = (0, 0, data, [Ev.read (SD109_VOLTAGE_5V_BOARD + channel * 3)])
    ∧ sd109_read_in HZ bus jiffies data .hwmon_in_max channel
      = (0, 0, data, [Ev.read (SD109_VOLTAGE_5V_BOARD_MAX + channel * 3)])
    ∧ sd109_read_in HZ bus jiffies data .hwmon_in_min channel
      = (0, 0, data, [Ev.read (SD109_VOLTAGE_5V_BOARD_MIN + channel * 3)]) := by
  refine ⟨?_, ?_, ?_⟩
  · simp [sd109_read_in, hch,
      sd109_get_voltage_read_fail HZ bus jiffies data channel hch hmiss_in hfail_in]
  · simp [sd109_read_in, hch,
      sd109_get_voltage_max_read_fail HZ bus jiffies data channel hch hmiss_max hfail_max]
  · simp [sd109_read_in, hch,
      sd109_get_voltage_min_read_fail HZ bus jiffies data channel hch hmiss_min hfail_min]

/-- A bus on which every register access fails with `-EIO` (-5). -/
def failBus : Bus where
  read _ := (-5, 0)
  write _ _ := -5

/-- A cache state with every slot invalid and zeroed (the kzalloc'd initial
state of `struct sd109_private`). -/
def emptyState : Sd109State :=
  ⟨fun _ => false, fun _ => 0, fun _ => 0,
   fun _ => false, fun _ => 0, fun _ => 0,
   fun _ => false, fun _ => 0, fun _ => 0⟩

/-- Counterexample to C2 as stated: on channel 0 with an invalid slot and a
bus whose read fails with -5, `sd109_read_in(input)` returns 0 — success —
with `*val = 0`, rather than propagating the error; the claim's "the error
is propagated to the caller" is false (the unchanged-slot half does hold:
the state comes back identical). -/
theorem sd109_read_in_fail_swallows_error_cex :
    (failBus.read (SD109_VOLTAGE_5V_BOARD + 0 * 3)).1 < 0
    ∧ (sd109_read_in 100 failBus 0 emptyState .hwmon_in_input 0).1 = 0
    ∧ ¬ (sd109_read_in 100 failBus 0 emptyState .hwmon_in_input 0).1 < 0
    ∧ (sd109_read_in 100 failBus 0 emptyState .hwmon_in_input 0).2.1 = 0
    ∧ (sd109_read_in 100 failBus 0 emptyState .hwmon_in_input 0).2.2.1 = emptyState :=
  ⟨by decide, by decide, by decide, by decide, rfl⟩

/-- Witness for (amended) C2 at channel 0, `HZ = 100`, invalid slots, a bus
failing with -5. -/
theorem sd109_read_in_fail_swallows_error_witness :
    sd109_read_in 100 failBus 0 emptyState .hwmon_in_input 0
      = (0, 0, emptyState, [Ev.read (SD109_VOLTAGE_5V_BOARD + 0 * 3)])
    ∧ sd109_read_in 100 failBus 0 emptyState .hwmon_in_max 0
      = (0, 0, emptyState, [Ev.read (SD109_VOLTAGE_5V_BOARD_MAX + 0 * 3)])
    ∧ sd109_read_in 100 failBus 0 emptyState .hwmon_in_min 0
      = (0, 0, emptyState, [Ev.read (SD109_VOLTAGE_5V_BOARD_MIN + 0 * 3)]) :=
  sd109_read_in_fail_swallows_error 100 failBus 0 emptyState 0
    (by decide) (Or.inr rfl) (by decide) (Or.inr rfl) (by decide)
    (Or.inr rfl) (by decide)

/-- C8: TTL behaviour of the voltage cache on a supported channel.  A first
`get` that misses (slot invalid or stale) issues one register read and
installs a valid, fresh slot; a second `get` within the refresh interval
(`¬ time_after(t1, t0 + HZ)`) issues no bus access and returns the cached
value — so the two calls issue exactly one register read — and a further
`get` after the interval has elapsed (`time_after(t2, t0 + HZ)`) issues a
second register read. -/
theorem sd109_get_voltage_cache_refresh (HZ : Nat) (bus : Bus)
    (data : Sd109State) (ch t0 t1 t2 v : Nat) (hch : ch < NUM_CH_VIN)
    (hmiss : data.volt_updated ch + HZ < t0 ∨ data.volt_valid ch = false)
    (hread : bus.read (SD109_VOLTAGE_5V_BOARD + ch * 3) = (0, v))
    (hfresh : ¬ t0 + HZ < t1)
    (hstale : t0 + HZ < t2) :
    (sd109_get_voltage HZ bus t0 data ch).2.2
        = [Ev.read (SD109_VOLTAGE_5V_BOARD + ch * 3)]
    ∧ sd109_get_voltage HZ bus t1 (sd109_get_voltage HZ bus t0 data ch).2.1 ch
        = (v, (sd109_get_voltage HZ bus t0 data ch).2.1, [])
    ∧ (sd109_get_voltage HZ bus t2
         (sd109_get_voltage HZ bus t1
           (sd109_get_voltage HZ bus t0 data ch).2.1 ch).2.1 ch).2.2
        = [Ev.read (SD109_VOLTAGE_5V_BOARD + ch * 3)] := by
  set R : Sd109State :=
    { data with
        volt := fun c => if c = ch then v else data.volt c,
        volt_updated := fun c => if c = ch then t0 else data.volt_updated c,
        volt_valid := fun c => if c = ch then true else data.volt_valid c } with hR
  have hRu : R.volt_updated ch = t0 := by rw [hR]; simp
  have hRv : R.volt_valid ch = true := by rw [hR]; simp
  have hRw : R.volt ch = v := by rw [hR]; simp
  have h1 : sd109_get_voltage HZ bus t0 data ch
      = (v, R, [Ev.read (SD109_VOLTAGE_5V_BOARD + ch * 3)]) := by
    rw [hR]
    simp only [sd109_get_voltage]
    rw [if_pos hch, if_pos hmiss, hread]
    norm_num
  have h2 : sd109_get_voltage HZ bus t1 R ch = (v, R, []) := by
    simp only [sd109_get_voltage]
    rw [if_pos hch]
    simp [hfresh]
  have h3 : (sd109_get_voltage HZ bus t2 R ch).2.2
      = [Ev.read (SD109_VOLTAGE_5V_BOARD + ch * 3)] := by
    simp only [sd109_get_voltage]
    rw [if_pos hch]
    simp [hstale, hread]
  refine ⟨?_, ?_, ?_⟩
  · rw [h1]
  · rw [h1]
    exact h2
  · rw [h1]
    dsimp only
    rw [h2]
    exact h3

/-- A bus on which every read succeeds with value 1234 and every write
succeeds. -/
def okVoltBus : Bus where
  read _ := (0, 1234)
  write _ _ := 0

/-- Witness for C8: channel 0, `HZ = 100`, calls at jiffies 0, 100 and 101
starting from an invalid slot. -/
theorem sd109_get_voltage_cache_refresh_witness :
    (sd109_get_voltage 100 okVoltBus 0 emptyState 0).2.2
        = [Ev.read (SD109_VOLTAGE_5V_BOARD + 0 * 3)]
    ∧ sd109_get_voltage 100 okVoltBus 100
        (sd109_get_voltage 100 okVoltBus 0 emptyState 0).2.1 0
        = (1234, (sd109_get_voltage 100 okVoltBus 0 emptyState 0).2.1, [])
    ∧ (sd109_get_voltage 100 okVoltBus 101
         (sd109_get_voltage 100 okVoltBus 100
           (sd109_get_voltage 100 okVoltBus 0 emptyState 0).2.1 0).2.1 0).2.2
        = [Ev.read (SD109_VOLTAGE_5V_BOARD + 0 * 3)] :=
  sd109_get_voltage_cache_refresh 100 okVoltBus emptyState 0 0 100 101 1234
    (by decide) (Or.inr rfl) (by decide) (by decide) (by decide)

/-! ### Watchdog (sd109_wdt_settimeout / sd109_wdog_init, lines 378-475) -/

/-- The combined register value built by `sd109_wdt_settimeout`, sd109.c
lines 389-390: wait granule (`wdog_wait/5`) in the high byte, timeout in
the low byte. -/
def sd109_wdog_reg (wdog_wait timeout : Nat) : Nat :=
  (((wdog_wait / 5) <<< SD109_WDOG_WAIT_POS) &&& SD109_WDOG_WAIT_MASK)
    ||| ((timeout &&& SD109_WDOG_TIMEOUT_MASK) <<< SD109_WDOG_TIMEOUT_POS)

/-- Device-resident timeout decoded by `sd109_wdog_init`, lines 434-435. -/
def sd109_device_wdog_timeout (tinfo : Nat) : Nat :=
  (tinfo &&& SD109_WDOG_TIMEOUT_MASK) >>> SD109_WDOG_TIMEOUT_POS

/-- Device-resident wait decoded by `sd109_wdog_init`, lines 436-437. -/
def sd109_device_wdog_wait (tinfo : Nat) : Nat :=
  ((tinfo &&& SD109_WDOG_WAIT_MASK) >>> SD109_WDOG_WAIT_POS) * 5

/-- `sd109_wdt_settimeout`, sd109.c lines 378-397.  `timeout_invalid` is
the verdict of the framework's `watchdog_timeout_invalid` sanity check
(external policy supplied by the watchdog core).  Returns the C return
value, the resulting `wdd->timeout`, and the write trace.  Note that once
the argument checks pass, the C code ignores the `regmap_write` return
value, records `timeout` into `wdd->timeout`, and returns 0 unconditionally. -/
def sd109_wdt_settimeout (bus : Bus) (timeout_invalid : Bool)
    (wdog_wait wdd_timeout timeout : Nat) : Int × Nat × List Ev :=
  if timeout_invalid = true ∨ 255 < timeout then (-EINVAL, wdd_timeout, [])
  else
    let reg := sd109_wdog_reg wdog_wait timeout
    let _ret := bus.write SD109_WDOG_TIMEOUT reg
    (0, timeout, [Ev.write SD109_WDOG_TIMEOUT reg])

/-- C3: for every timeout ≤ 255 that passes the framework sanity check,
`sd109_wdt_settimeout` writes the combined bitfield register (low byte =
timeout, high byte = wait/5) and records the timeout as the active timeout
(in particular on success of that write); for every timeout > 255 it
rejects with `-EINVAL` before any register write (empty trace). -/
theorem sd109_wdt_settimeout_spec (bus : Bus) (ti : Bool)
    (wdog_wait wdd_timeout timeout : Nat) :
    (timeout ≤ 255 → ti = false →
      sd109_wdt_settimeout bus ti wdog_wait wdd_timeout timeout
        = (0, timeout, [Ev.write SD109_WDOG_TIMEOUT (sd109_wdog_reg wdog_wait timeout)]))
    ∧ (255 < timeout →
      sd109_wdt_settimeout bus ti wdog_wait wdd_timeout timeout
        = (-EINVAL, wdd_timeout, [])) := by
  constructor
  · intro hle hti
    have hcond : ¬ (ti = true ∨ 255 < timeout) := by
      simp [hti]
      omega
    simp [sd109_wdt_settimeout, hcond]
  · intro hgt
    have hcond : ti = true ∨ 255 < timeout := Or.inr hgt
    simp [sd109_wdt_settimeout, hcond]

/-- Witness for C3: accepted call with timeout 30 / wait 45, rejected call
with timeout 300. -/
theorem sd109_wdt_settimeout_spec_witness :
    sd109_wdt_settimeout okVoltBus false 45 0 30
      = (0, 30, [Ev.write SD109_WDOG_TIMEOUT (sd109_wdog_reg 45 30)])
    ∧ sd109_wdt_settimeout okVoltBus false 45 0 300 = (-EINVAL, 0, []) :=
  ⟨(sd109_wdt_settimeout_spec okVoltBus false 45 0 30).1 (by norm_num) rfl,
   (sd109_wdt_settimeout_spec okVoltBus false 45 0 300).2 (by norm_num)⟩

/-- C7: the watchdog bitfield codec maps timeout=30, wait=45 timeout register
value 0x091E (low byte = timeout, high byte = wait/5), and decoding 0x091E
as done by `sd109_wdog_init` recovers timeout=30 and wait=45. -/
theorem sd109_wdog_bitfield_example :
    sd109_wdog_reg 45 30 = 0x091E
    ∧ sd109_device_wdog_timeout 0x091E = 30
    ∧ sd109_device_wdog_wait 0x091E = 45 := by
  refine ⟨by decide, by decide, by decide⟩

/-- 32-bit two's-complement image of a C `int` value as stored into an
`unsigned int` field such as `wdd->timeout`. -/
def toNat32 (i : Int) : Nat := (i % (2 : Int) ^ 32).toNat

/-- Result of `sd109_wdog_init`: the C return value, the reconciled
`wdd.timeout` and `data->wdog_wait`, the local `update_device` flag, and
the event trace. -/
structure WdogInit where
  ret : Int
  wdd_timeout : Nat
  wdog_wait : Nat
  update_device : Bool
  trace : List Ev
deriving DecidableEq, Repr

/-- `sd109_wdog_init`, sd109.c lines 418-475.  `timeout_invalid` is the
framework sanity-check verdict consulted by the inner
`sd109_wdt_settimeout` call; `register_ret` is the outcome of the external
`watchdog_register_device`.  `overlay_wdog_timeout` / `overlay_wdog_wait`
are the C `int` overlay fields (-1 when the device-tree property is
absent).  The return value of the `sd109_wdt_settimeout` call is discarded,
exactly as in the C code. -/
def sd109_wdog_init (bus : Bus) (timeout_invalid : Bool)
    (overlay_wdog_timeout overlay_wdog_wait : Int) (register_ret : Int) :
    WdogInit :=
  let p := bus.read SD109_WDOG_TIMEOUT
  if p.1 < 0 then ⟨p.1, 0, 0, false, [Ev.read SD109_WDOG_TIMEOUT]⟩
  else
    let device_wdog_timeout := sd109_device_wdog_timeout p.2
    let device_wdog_wait := sd109_device_wdog_wait p.2
    let wddTimeout : Nat :=
      if overlay_wdog_timeout = -1 then device_wdog_timeout
      else toNat32 overlay_wdog_timeout
    let wdogWait : Nat :=
      if overlay_wdog_wait < (SD109_MIN_WDOG_WAIT : Int) then device_wdog_wait
      else overlay_wdog_wait.toNat
    let update_device : Bool :=
      decide (¬ overlay_wdog_timeout = -1)
        || decide ((SD109_MIN_WDOG_WAIT : Int) ≤ overlay_wdog_wait)
    let st :=
      if update_device then
        sd109_wdt_settimeout bus timeout_invalid wdogWait wddTimeout wddTimeout
      else (0, wddTimeout, [])
    if register_ret ≠ 0 then
      ⟨register_ret, st.2.1, wdogWait, update_device,
       Ev.read SD109_WDOG_TIMEOUT :: st.2.2⟩
    else
      ⟨0, st.2.1, wdogWait, update_device,
       (Ev.read SD109_WDOG_TIMEOUT :: st.2.2) ++ [Ev.wdogRegister]⟩

/-- C4 (amended): under a successful initial register read,
`sd109_wdog_init` adopts the external timeout override exactly when it
differs from the unset sentinel -1 (otherwise the device-read value),
adopts the external wait override exactly when it is ≥ 45 seconds
(otherwise, including the unset case, the device-read value), and raises
`update_device` — invoking the set-timeout write-back — if and only if at
least one override won; however the combined value actually reaches the
device if and only if, in addition, the adopted timeout passes the
`sd109_wdt_settimeout` validation (framework sanity check passes and the
adopted timeout is ≤ 255). -/
theorem sd109_wdog_init_reconcile (bus : Bus) (ti : Bool) (ot ow rr : Int)
    (tinfo : Nat) (hread : bus.read SD109_WDOG_TIMEOUT = (0, tinfo)) :
    (sd109_wdog_init bus ti ot ow rr).wdd_timeout
        = (if ot = -1 then sd109_device_wdog_timeout tinfo else toNat32 ot)
    ∧ (sd109_wdog_init bus ti ot ow rr).wdog_wait
        = (if ow < 45 then sd109_device_wdog_wait tinfo else ow.toNat)
    ∧ ((sd109_wdog_init bus ti ot ow rr).update_device = true
        ↔ (ot ≠ -1 ∨ (45 : Int) ≤ ow))
    ∧ (sd109_wdog_init bus ti ot ow rr).trace
        = Ev.read SD109_WDOG_TIMEOUT ::
            ((if (ot ≠ -1 ∨ (45 : Int) ≤ ow) ∧ ti = false
                  ∧ (if ot = -1 then sd109_device_wdog_timeout tinfo else toNat32 ot) ≤ 255
              then [Ev.write SD109_WDOG_TIMEOUT
                      (sd109_wdog_reg
                        (if ow < 45 then sd109_device_wdog_wait tinfo else ow.toNat)
                        (if ot = -1 then sd109_device_wdog_timeout tinfo else toNat32 ot))]
              else [])
             ++ (if rr = 0 then [Ev.wdogRegister] else [])) := by
  by_cases hot : ot = -1 <;> by_cases how : ow < (45 : Int) <;>
    by_cases hti : ti = false <;> by_cases hrr : rr = 0 <;>
    by_cases hto : (if ot = -1 then sd109_device_wdog_timeout tinfo else toNat32 ot) ≤ 255 <;>
    simp_all [sd109_wdog_init, sd109_wdt_settimeout, hread, SD109_MIN_WDOG_WAIT,
      not_lt, not_le] <;>
    (try (split_ifs <;> (try simp_all) <;> (try omega)))

/-- A bus whose watchdog-timeout register reads as 0x091E (timeout 30,
wait 45) and whose writes all succeed. -/
def wdogBus : Bus where
  read a := if a = SD109_WDOG_TIMEOUT then (0, 0x091E) else (0, 0)
  write _ _ := 0

/-- Counterexample to C4 as stated: with an overlay timeout override of 300
(not the -1 sentinel, so the override wins and `update_device` is raised)
and no wait override, the reconciled combined value is never written back:
the inner `sd109_wdt_settimeout` call rejects 300 > 255 before the register
write, so the trace contains no write event — refuting "the combined value
is written back to the device if and only if at least one override won". -/
theorem sd109_wdog_init_writeback_cex :
    ((300 : Int) ≠ -1)
    ∧ (sd109_wdog_init wdogBus false 300 0 0).update_device = true
    ∧ (sd109_wdog_init wdogBus false 300 0 0).trace
        = [Ev.read SD109_WDOG_TIMEOUT, Ev.wdogRegister] :=
  ⟨by decide, by decide, by decide⟩

/-- Witness for (amended) C4: overlay timeout 60 and overlay wait 50 both
win over the device value 0x091E and the write-back reaches the device. -/
theorem sd109_wdog_init_reconcile_witness :
    (sd109_wdog_init wdogBus false 60 50 0).wdd_timeout
        = (if (60 : Int) = -1 then sd109_device_wdog_timeout 0x091E else toNat32 60)
    ∧ (sd109_wdog_init wdogBus false 60 50 0).wdog_wait
        = (if (50 : Int) < 45 then sd109_device_wdog_wait 0x091E else (50 : Int).toNat)
    ∧ ((sd109_wdog_init wdogBus false 60 50 0).update_device = true
        ↔ ((60 : Int) ≠ -1 ∨ (45 : Int) ≤ 50))
    ∧ (sd109_wdog_init wdogBus false 60 50 0).trace
        = Ev.read SD109_WDOG_TIMEOUT ::
            ((if ((60 : Int) ≠ -1 ∨ (45 : Int) ≤ 50) ∧ false = false
                  ∧ (if (60 : Int) = -1 then sd109_device_wdog_timeout 0x091E
                     else toNat32 60) ≤ 255
              then [Ev.write SD109_WDOG_TIMEOUT
                      (sd109_wdog_reg
                        (if (50 : Int) < 45 then sd109_device_wdog_wait 0x091E
                         else (50 : Int).toNat)
                        (if (60 : Int) = -1 then sd109_device_wdog_timeout 0x091E
                         else toNat32 60))]
              else [])
             ++ (if (0 : Int) = 0 then [Ev.wdogRegister] else [])) :=
  sd109_wdog_init_reconcile wdogBus false 60 50 0 0x091E (by decide)

/-! ### Remaining watchdog ops (lines 353-376), alarm IRQ (lines 650-661) -/

/-- `sd109_wdt_ping`, sd109.c lines 353-360. -/
def sd109_wdt_ping (bus : Bus) : Int × List Ev :=
  (bus.write SD109_WDOG_REFRESH SD109_WDOG_REFRESH_MAGIC_VALUE,
   [Ev.write SD109_WDOG_REFRESH SD109_WDOG_REFRESH_MAGIC_VALUE])

/-- `sd109_wdt_start`, sd109.c lines 362-368. -/
def sd109_wdt_start (bus : Bus) : Int × List Ev :=
  (bus.write SD109_COMMAND SD109_WDOG_ENABLE,
   [Ev.write SD109_COMMAND SD109_WDOG_ENABLE])

/-- `sd109_wdt_stop`, sd109.c lines 370-376. -/
def sd109_wdt_stop (bus : Bus) : Int × List Ev :=
  (bus.write SD109_COMMAND SD109_WDOG_DISABLE,
   [Ev.write SD109_COMMAND SD109_WDOG_DISABLE])

/-- `sd109_alarm_irq_enable`, sd109.c lines 650-661: disabling clears the
three wakeup words (write results ignored) and never touches the host
shadow; enabling performs no device action.  Always returns 0. -/
def sd109_alarm_irq_enable (bus : Bus) (enabled : Bool) : Int × List Ev :=
  if enabled = false then
    let _r0 := bus.write SD109_WAKEUP0 0
    let _r1 := bus.write SD109_WAKEUP1 0
    let _r2 := bus.write SD109_WAKEUP2 0
    (0, [Ev.write SD109_WAKEUP0 0, Ev.write SD109_WAKEUP1 0, Ev.write SD109_WAKEUP2 0])
  else (0, [])

/-! ### Probe (sd109_probe, lines 731-846) -/

/-- Boot-status classification performed by the `switch (val)` on the
status register in `sd109_probe` (lines 782-801); anything outside the five
known codes is only logged as unknown. -/
inductive BootStatus
  | powerup
  | poweroff
  | reboot
  | halt
  | wakeup
  | unknown
deriving DecidableEq, Repr

def sd109_boot_status (v : Nat) : BootStatus :=
  if v = SD109_STATUS_POWERUP then .powerup
  else if v = SD109_STATUS_POWEROFF then .poweroff
  else if v = SD109_STATUS_REBOOT then .reboot
  else if v = SD109_STATUS_HALT then .halt
  else if v = SD109_STATUS_WAKEUP then .wakeup
  else .unknown

/-- 32-bit two's-complement image of an unsigned 32-bit property value as
stored into the C `int` overlay fields by `sd109_probe`. -/
def toInt32 (v : Nat) : Int :=
  if v % 2 ^ 32 < 2 ^ 31 then ((v % 2 ^ 32 : Nat) : Int)
  else ((v % 2 ^ 32 : Nat) : Int) - 2 ^ 32

/-- Configuration and external outcomes consumed by `sd109_probe`: the
device-tree flags and properties it reads, the framework registration
results (`devm_hwmon_device_register_with_info`, `watchdog_register_device`,
`devm_rtc_device_register`, error iff negative), and the framework
`watchdog_timeout_invalid` verdict used inside watchdog init. -/
structure ProbeCfg where
  wdog_enabled : Bool
  wdog_nowayout : Bool
  wdog_timeout_prop : Option Nat
  wdog_wait_prop : Option Nat
  rtc_enabled : Bool
  hwmon_register_ret : Int
  wdog_register_ret : Int
  rtc_register_ret : Int
  timeout_invalid : Bool

/-- `sd109_probe`, sd109.c lines 731-846.  Returns the C return value and
the trace of register accesses and successful facade registrations.
`sd109_rtc_init`'s return value is ignored by the probe, exactly as in the
C code (line 833); the reboot notifier is registered last. -/
def sd109_probe (bus : Bus) (cfg : ProbeCfg) : Int × List Ev :=
  let p := bus.read SD109_CHIP_ID_REG
  if p.1 < 0 then (p.1, [Ev.read SD109_CHIP_ID_REG])
  else if p.2 ≠ SD109_CHIP_ID then (-ENODEV, [Ev.read SD109_CHIP_ID_REG])
  else
    let p2 := bus.read SD109_CHIP_VER_REG
    if p2.1 < 0 then (p2.1, [Ev.read SD109_CHIP_ID_REG, Ev.read SD109_CHIP_VER_REG])
    else
      let _firmware_version := p2.2
      let p3 := bus.read SD109_STATUS
      if p3.1 < 0 then
        (p3.1, [Ev.read SD109_CHIP_ID_REG, Ev.read SD109_CHIP_VER_REG,
                Ev.read SD109_STATUS])
      else
        let _bs := sd109_boot_status p3.2
        if cfg.hwmon_register_ret < 0 then
          (cfg.hwmon_register_ret,
           [Ev.read SD109_CHIP_ID_REG, Ev.read SD109_CHIP_VER_REG,
            Ev.read SD109_STATUS])
        else
          let tr4 := [Ev.read SD109_CHIP_ID_REG, Ev.read SD109_CHIP_VER_REG,
                      Ev.read SD109_STATUS, Ev.hwmonRegister]
          let wd : Int × List Ev :=
            if cfg.wdog_enabled then
              let overlay_t : Int :=
                match cfg.wdog_timeout_prop with
                | none => -1
                | some v => toInt32 v
              let overlay_w : Int :=
                match cfg.wdog_wait_prop with
                | none => -1
                | some v => toInt32 v
              let w := sd109_wdog_init bus cfg.timeout_invalid overlay_t overlay_w
                         cfg.wdog_register_ret
              (w.ret, w.trace)
            else (0, [])
          if wd.1 ≠ 0 then (wd.1, tr4 ++ wd.2)
          else
            let tr5 := tr4 ++ wd.2 ++
              (if cfg.rtc_enabled then
                 (if cfg.rtc_register_ret < 0 then [] else [Ev.rtcRegister])
               else [])
            (0, tr5 ++ [Ev.rebootNotifier])

/-- C9: when the chip-id register reads back any value different from the
fixed constant 0xd109, `sd109_probe` fails with `-ENODEV` after exactly
that single read: no firmware-version read, no status read, and no
hwmon/watchdog/rtc facade registration and no reboot-notifier registration
appear in the trace. -/
theorem sd109_probe_chip_mismatch (bus : Bus) (cfg : ProbeCfg) (v : Nat)
    (hread : bus.read SD109_CHIP_ID_REG = (0, v)) (hv : v ≠ SD109_CHIP_ID) :
    sd109_probe bus cfg = (-ENODEV, [Ev.read SD109_CHIP_ID_REG]) := by
  simp [sd109_probe, hread, hv]

/-- A bus whose chip-id register reads 0 (not the sd109 id). -/
def badIdBus : Bus where
  read _ := (0, 0)
  write _ _ := 0

/-- A probe configuration with every facade enabled and every external
registration succeeding. -/
def allOnCfg : ProbeCfg :=
  ⟨true, false, none, none, true, 0, 0, 0, false⟩

/-- Witness for C9: chip id 0 instead of 0xd109, with all facades enabled
in the configuration — none becomes reachable. -/
theorem sd109_probe_chip_mismatch_witness :
    sd109_probe badIdBus allOnCfg = (-ENODEV, [Ev.read SD109_CHIP_ID_REG]) :=
  sd109_probe_chip_mismatch badIdBus allOnCfg 0 rfl (by decide)

/-! ### Reboot/shutdown notifier (sd109_notify_reboot, lines 699-720) -/

/-- `sd109_notify_reboot`, sd109.c lines 699-720.  Dispatches on the reboot
code; a failed command write only triggers a printk diagnostic, and the
function returns `NOTIFY_DONE` unconditionally. -/
def sd109_notify_reboot (bus : Bus) (code : Nat) : Int × List Ev :=
  let r : Int × List Ev :=
    if code = SYS_POWER_OFF then
      (bus.write SD109_COMMAND SD109_EXEC_POWEROFF,
       [Ev.write SD109_COMMAND SD109_EXEC_POWEROFF])
    else if code = SYS_RESTART then
      (bus.write SD109_COMMAND SD109_EXEC_REBOOT,
       [Ev.write SD109_COMMAND SD109_EXEC_REBOOT])
    else if code = SYS_HALT then
      (bus.write SD109_COMMAND SD109_EXEC_HALT,
       [Ev.write SD109_COMMAND SD109_EXEC_HALT])
    else (0, [])
  (NOTIFY_DONE, r.2)

/-- C10: on a power-off signal the dispatcher performs exactly one
command-register write, with the fixed poweroff code 3, and returns
`NOTIFY_DONE` for every bus — in particular also when that write fails, so
no error is ever raised to the caller of the shutdown sequence. -/
theorem sd109_notify_poweroff (bus : Bus) :
    sd109_notify_reboot bus SYS_POWER_OFF
      = (NOTIFY_DONE, [Ev.write SD109_COMMAND SD109_EXEC_POWEROFF]) := rfl
